import Mathlib

/-!
Shallow embedding of the Pixshop photo-editing front end
(src/App.tsx and src/services/geminiService.ts).

The embedding models the edit-history state machine and the Remote
Operation Gateway response classification.  JavaScript `File` objects
become records carrying a name, a MIME type string and a byte list;
React `useState` cells become fields of an `AppState` record; each
event handler becomes a pure state-transformer; the asynchronous
Gateway call inside each handler is passed in as an `Except` value
(`.ok` for a fulfilled promise, `.error e` for a rejected promise whose
`Error` carries message `e`); `Date.now()` becomes an explicit `now`
parameter used only for generated file names.
-/

namespace Pixshop

/-- Model of a JavaScript `File`: file name, MIME type and content bytes. -/
structure File where
  name : String
  type : String
  content : List Nat
deriving Repr, DecidableEq

/-- An `{x, y}` pixel coordinate pair (the edit hotspot objects in App.tsx). -/
structure Hotspot where
  x : Int
  y : Int
deriving Repr, DecidableEq

/-- The `Tab` union type of App.tsx. -/
inductive Tab where
  | retouch | adjust | filters | crop | threeD | animate | removeBg | restore | groupRestore
deriving Repr, DecidableEq

/-- Model of a react-image-crop `Crop` rectangle (only its identity matters here). -/
structure Crop where
  x : Int
  y : Int
  width : Int
  height : Int
deriving Repr, DecidableEq

/-- Model of a react-image-crop `PixelCrop` rectangle. -/
structure PixelCrop where
  x : Int
  y : Int
  width : Int
  height : Int
deriving Repr, DecidableEq

/-- The `useState` cells of the `App` component gathered into one record
(history, historyIndex, prompt, animatePrompt, isLoading, loadingMessage,
error, editHotspot, displayHotspot, activeTab, crop, completedCrop). -/
structure AppState where
  history : List File
  historyIndex : Int
  prompt : String
  animatePrompt : String
  isLoading : Bool
  loadingMessage : String
  error : Option String
  editHotspot : Option Hotspot
  displayHotspot : Option Hotspot
  activeTab : Tab
  crop : Option Crop
  completedCrop : Option PixelCrop
deriving Repr, DecidableEq

/-- JavaScript `String.prototype.trim`: strip leading and trailing
whitespace (modelled over the character list so it evaluates by kernel
reduction). -/
def jsTrim (s : String) : String :=
  String.mk (((s.data.dropWhile Char.isWhitespace).reverse.dropWhile Char.isWhitespace).reverse)

/-- JavaScript `s.startsWith(p)` (modelled over the character lists). -/
def jsStartsWith (s p : String) : Bool :=
  p.data.isPrefixOf s.data

/-- `const currentImage = history[historyIndex] ?? null` (App.tsx line 60);
a negative or out-of-range index yields `undefined`, hence `none`. -/
def currentImage (st : AppState) : Option File :=
  if st.historyIndex < 0 then none else st.history.get? st.historyIndex.toNat

/-- `const isCurrentItemVideo = currentImage?.type.startsWith('video/')`
(App.tsx line 66), with `undefined` collapsing to `false` under JS truthiness. -/
def isCurrentItemVideo (st : AppState) : Bool :=
  match currentImage st with
  | some f => jsStartsWith f.type "video/"
  | none => false

/-- `const canUndo = historyIndex > 0` (App.tsx line 91). -/
def canUndo (st : AppState) : Bool :=
  decide (0 < st.historyIndex)

/-- `const canRedo = historyIndex < history.length - 1` (App.tsx line 92). -/
def canRedo (st : AppState) : Bool :=
  decide (st.historyIndex < (st.history.length : Int) - 1)

/-- `addImageToHistory` (App.tsx lines 94-102): slice the history to the
first `historyIndex + 1` elements, push the new file, point the index at
the new last element and clear the transient crop state. -/
def addImageToHistory (st : AppState) (newImageFile : File) : AppState :=
  let newHistory := st.history.take (st.historyIndex + 1).toNat ++ [newImageFile]
  { st with
      history := newHistory
      historyIndex := (newHistory.length : Int) - 1
      crop := none
      completedCrop := none }

/-- `handleImageUpload` (App.tsx lines 104-113): replace the whole history
with the single uploaded file, reset the cursor to 0 and clear the
error, both hotspots, the active tab and the crop state. -/
def handleImageUpload (st : AppState) (file : File) : AppState :=
  { st with
      error := none
      history := [file]
      historyIndex := 0
      editHotspot := none
      displayHotspot := none
      activeTab := Tab.retouch
      crop := none
      completedCrop := none }

/-- `handleFileSelect` (App.tsx lines 412-416): `if (files && files[0])`
dispatch the upload, otherwise do nothing.  The `FileList` argument is
modelled as an optional list of files. -/
def handleFileSelect (st : AppState) (files : Option (List File)) : AppState :=
  match files with
  | some (f :: _) => handleImageUpload st f
  | _ => st

/-- `handleUndo` (App.tsx lines 365-371): guarded by `canUndo`; decrements
the index and clears both hotspots, otherwise leaves the state untouched. -/
def handleUndo (st : AppState) : AppState :=
  if canUndo st then
    { st with historyIndex := st.historyIndex - 1, editHotspot := none, displayHotspot := none }
  else st

/-- `handleRedo` (App.tsx lines 373-379): guarded by `canRedo`; increments
the index and clears both hotspots, otherwise leaves the state untouched. -/
def handleRedo (st : AppState) : AppState :=
  if canRedo st then
    { st with historyIndex := st.historyIndex + 1, editHotspot := none, displayHotspot := none }
  else st

/-- `handleReset` (App.tsx lines 381-388): on a non-empty history, move the
cursor to 0 and clear the error and both hotspots; entries are untouched. -/
def handleReset (st : AppState) : AppState :=
  if 0 < st.history.length then
    { st with historyIndex := 0, error := none, editHotspot := none, displayHotspot := none }
  else st

/-- `handleUploadNew` (App.tsx lines 390-397): empty the history, set the
index to -1 and clear error, prompt and both hotspots. -/
def handleUploadNew (st : AppState) : AppState :=
  { st with
      history := []
      historyIndex := -1
      error := none
      prompt := ""
      editHotspot := none
      displayHotspot := none }

/-! ### Data-URL parsing (`dataURLtoFile`, App.tsx lines 24-38)

Strings are manipulated through their character lists so that the
interaction of `split`, concatenation and membership can be reasoned
about by induction.  `splitOnChar` models `String.prototype.split` with
a single-character separator; its result is always non-empty. -/

/-- JavaScript `s.split(sep)` for a one-character separator, on char lists. -/
def splitOnChar (c : Char) : List Char → List (List Char)
  | [] => [[]]
  | x :: xs =>
    let r := splitOnChar c xs
    if x = c then [] :: r
    else
      match r with
      | [] => [[x]]
      | g :: gs => (x :: g) :: gs

/-- Re-join chunks with a one-character separator (inverse view of
`splitOnChar`, used to express "everything after the first colon"). -/
def joinSep (c : Char) : List (List Char) → List Char
  | [] => []
  | [g] => g
  | g :: gs => g ++ c :: joinSep c gs

/-- The lazy regular expression `/:(.*?);/` of `dataURLtoFile` applied to
`arr[0]`: capture the characters strictly between the first `:` (that is
followed by some `;`) and the first `;` after it; the match fails when no
such pair exists, and the captured group must be non-empty (an empty
capture is falsy in `if (!mimeMatch || !mimeMatch[1])`). -/
def mimeFromHeader (header : List Char) : Option (List Char) :=
  match splitOnChar ':' header with
  | _ :: r :: rs =>
    match splitOnChar ';' (joinSep ':' (r :: rs)) with
    | m :: _ :: _ => if m.isEmpty then none else some m
    | _ => none
  | _ => none

/-- Value of one base64 alphabet character (`A-Z a-z 0-9 + /`). -/
def b64Val (c : Char) : Option Nat :=
  if 'A' ≤ c ∧ c ≤ 'Z' then some (c.toNat - 65)
  else if 'a' ≤ c ∧ c ≤ 'z' then some (c.toNat - 71)
  else if '0' ≤ c ∧ c ≤ '9' then some (c.toNat + 4)
  else if c = '+' then some 62
  else if c = '/' then some 63
  else none

/-- Regroup a list of 6-bit values into 8-bit bytes, as base64 decoding
does; a trailing group of a single value is malformed. -/
def b64Bytes : List Nat → Option (List Nat)
  | [] => some []
  | [_] => none
  | [a, b] => some [(a * 4 + b / 16) % 256]
  | [a, b, c] => some [(a * 4 + b / 16) % 256, ((b % 16) * 16 + c / 4) % 256]
  | a :: b :: c :: d :: rest =>
    (b64Bytes rest).map
      (fun bs => (a * 4 + b / 16) % 256 :: ((b % 16) * 16 + c / 4) % 256 :: ((c % 4) * 64 + d) % 256 :: bs)

/-- Drop the `=` padding characters from the end of a base64 payload. -/
def stripPadding (s : List Char) : List Char :=
  (s.reverse.dropWhile (fun c => c = '=')).reverse

/-- Model of `window.atob`: base64-decode a payload into bytes, `none`
when the payload is not valid base64 (JS throws `InvalidCharacterError`). -/
def atob (s : List Char) : Option (List Nat) :=
  match (stripPadding s).mapM b64Val with
  | some vals => b64Bytes vals
  | none => none

/-- `dataURLtoFile` (App.tsx lines 24-38): split the data URL on commas
(throwing on fewer than two chunks), extract the MIME type from the
header with `/:(.*?);/`, base64-decode the payload with `atob`, and build
a `File` whose bytes are the decoded characters, in order (the JS loop
`u8arr[n] = bstr.charCodeAt(n)` copies the decoded string identically). -/
def dataURLtoFile (dataurl : String) (filename : String) : Except String File :=
  match splitOnChar ',' dataurl.data with
  | header :: payload :: _ =>
    match mimeFromHeader header with
    | none => Except.error "Could not parse MIME type from data URL"
    | some m =>
      match atob payload with
      | none => Except.error "InvalidCharacterError"
      | some bytes => Except.ok { name := filename, type := String.mk m, content := bytes }
  | _ => Except.error "Invalid data URL"

/-- The data URL built by gemini service classification on success:
`` `data:${mimeType};base64,${data}` `` (geminiService.ts line 45). -/
def mkDataUrl (mimeType data : String) : String :=
  "data:" ++ mimeType ++ ";base64," ++ data

/-! ### Remote Operation Gateway: response classification
(`handleApiResponse`, geminiService.ts lines 27-64) -/

/-- An inline image payload (`{ mimeType, data }`) of a response part. -/
structure InlineData where
  mimeType : String
  data : String
deriving Repr, DecidableEq

/-- One part of a candidate's content; `find(part => part.inlineData)`
inspects only the `inlineData` field. -/
structure Part where
  text : Option String
  inlineData : Option InlineData
deriving Repr, DecidableEq

/-- `response.promptFeedback`: block reason and optional message. -/
structure PromptFeedback where
  blockReason : Option String
  blockReasonMessage : Option String
deriving Repr, DecidableEq

/-- One response candidate: optional content parts and finish reason. -/
structure Candidate where
  content : Option (List Part)
  finishReason : Option String
deriving Repr, DecidableEq

/-- Model of `GenerateContentResponse`: prompt feedback, candidates and
the aggregated `response.text` accessor. -/
structure GenerateContentResponse where
  promptFeedback : Option PromptFeedback
  candidates : List Candidate
  text : Option String
deriving Repr, DecidableEq

/-- The truthy `response.promptFeedback?.blockReason` test of step 1,
paired with the accompanying `blockReasonMessage` when it fires (an
empty-string reason is falsy in JS and does not fire). -/
def blockReasonOf (r : GenerateContentResponse) : Option (String × Option String) :=
  match r.promptFeedback with
  | some pf =>
    match pf.blockReason with
    | some br => if br = "" then none else some (br, pf.blockReasonMessage)
    | none => none
  | none => none

/-- Step 2's `response.candidates?.[0]?.content?.parts?.find(part => part.inlineData)`:
the first inline payload of the first candidate, if any. -/
def imagePartOf (r : GenerateContentResponse) : Option InlineData :=
  match r.candidates.head? with
  | some c =>
    match c.content with
    | some parts =>
      match parts.find? (fun p => p.inlineData.isSome) with
      | some p => p.inlineData
      | none => none
    | none => none
  | none => none

/-- Step 3's `response.candidates?.[0]?.finishReason`. -/
def finishReasonOf (r : GenerateContentResponse) : Option String :=
  match r.candidates.head? with
  | some c => c.finishReason
  | none => none

/-- The fallback message of step 4 (`The AI model did not return an
image...`), quoting the trimmed `response.text` when it is truthy. -/
def noImageError (r : GenerateContentResponse) (context : String) : String :=
  let textFeedback := jsTrim (r.text.getD "")
  "The AI model did not return an image for the " ++ context ++ ". " ++
    (if textFeedback ≠ "" then
      "The model responded with text: \"" ++ textFeedback ++ "\""
    else
      "This can happen due to safety filters or if the request is too complex. Please try rephrasing your prompt to be more direct.")

/-- `handleApiResponse` (geminiService.ts lines 27-64).  A thrown
`Error` is modelled as `Except.error` carrying its message; the success
value is the data URL string returned at line 45. -/
def handleApiResponse (r : GenerateContentResponse) (context : String) : Except String String :=
  match blockReasonOf r with
  | some (blockReason, blockReasonMessage) =>
    Except.error ("Request was blocked. Reason: " ++ blockReason ++ ". " ++ blockReasonMessage.getD "")
  | none =>
    match imagePartOf r with
    | some d => Except.ok (mkDataUrl d.mimeType d.data)
    | none =>
      match finishReasonOf r with
      | some finishReason =>
        if finishReason ≠ "" ∧ finishReason ≠ "STOP" then
          Except.error ("Image generation for " ++ context ++ " stopped unexpectedly. Reason: " ++ finishReason ++ ". This often relates to safety settings.")
        else
          Except.error (noImageError r context)
      | none => Except.error (noImageError r context)

/-! ### Asynchronous video generation
(`generateVideoFromImage`, geminiService.ts lines 345-404)

The remote operation object and the transport are passed in as data:
`op0` is the handle returned by `generateVideos`, `getOp i` is the
operation object returned by the `(i+1)`-th `getVideosOperation` status
query, and `fetchResult` is the HTTP response of the final download. -/

/-- The video operation handle: completion flag, optional error message
(`operation.error.message`) and the optional download URI
(`operation.response?.generatedVideos?.[0]?.video?.uri`). -/
structure VideoOperation where
  done : Bool
  error : Option String
  uri : Option String
deriving Repr, DecidableEq

/-- `const pollInterval = 10000` — the fixed sleep, in milliseconds,
taken before every status query (geminiService.ts line 370). -/
def pollInterval : Nat := 10000

/-- `const maxAttempts = 30` — the poll ceiling (geminiService.ts line 372). -/
def maxAttempts : Nat := 30

/-- The poll loop `while (!operation.done && attempts < maxAttempts)`
(geminiService.ts lines 374-379).  Each recursive step stands for one
iteration: sleep `pollInterval` milliseconds, query the operation
(`getOp attempts`), increment `attempts`.  Returns the final operation
object together with the final attempt count, which also equals the
number of sleeps and status queries performed. -/
def pollLoop (getOp : Nat → VideoOperation) (operation : VideoOperation) (attempts : Nat) :
    VideoOperation × Nat :=
  if h : operation.done = false ∧ attempts < maxAttempts then
    pollLoop getOp (getOp attempts) (attempts + 1)
  else
    (operation, attempts)
termination_by maxAttempts - attempts
decreasing_by
  simp [maxAttempts] at *
  omega

/-- The HTTP response of the final video download (`fetch` result):
`ok` flag, `statusText` and the body bytes. -/
structure FetchResponse where
  ok : Bool
  statusText : String
  blob : List Nat
deriving Repr, DecidableEq

/-- `generateVideoFromImage` (geminiService.ts lines 345-404) from the
poll loop onwards: poll from attempt 0; if still not done, fail with the
timeout message; then check `operation.error`, the download link, and the
transport status; on success wrap the downloaded bytes as an `.mp4` file. -/
def generateVideoFromImage (op0 : VideoOperation) (getOp : Nat → VideoOperation)
    (fetchResult : FetchResponse) (now : Nat) : Except String File :=
  let p := pollLoop getOp op0 0
  let operation := p.1
  if operation.done = false then
    Except.error "Video generation timed out after 5 minutes."
  else
    match operation.error with
    | some msg => Except.error ("Video generation failed: " ++ msg)
    | none =>
      match operation.uri with
      | none => Except.error "Video generation finished, but no download link was provided."
      | some _ =>
        if fetchResult.ok = false then
          Except.error ("Failed to download video: " ++ fetchResult.statusText)
        else
          Except.ok { name := "video-" ++ toString now ++ ".mp4", type := "video/mp4", content := fetchResult.blob }

/-! ### Operation handlers (App.tsx)

Each handler takes the outcome of its Gateway call as an `Except`
argument: `.ok` is the fulfilled promise value, `.error e` a rejected
promise whose `Error` has message `e` (every failure mode of the service
— refusal, transport error, timeout, missing output — reaches the
handler as a rejection).  `dataURLtoFile` runs inside the same `try`
block in the source, so its exception funnels into the same `catch`;
this is the `Except.bind` below.  The `finally` block's `setIsLoading(false)`
(and, where present, the loading-message reset) is applied on both paths. -/

/-- `handleGenerate` (App.tsx lines 115-148): the localized retouch edit. -/
def handleGenerate (st : AppState) (now : Nat) (gateway : Except String String) : AppState :=
  if (currentImage st).isNone || isCurrentItemVideo st then
    { st with error := some "No image loaded to edit." }
  else if jsTrim st.prompt = "" then
    { st with error := some "Please enter a description for your edit." }
  else if st.editHotspot.isNone then
    { st with error := some "Please click on the image to select an area to edit." }
  else
    let st1 := { st with isLoading := true, loadingMessage := "AI is working its magic...", error := none }
    match gateway.bind (fun url => dataURLtoFile url ("edited-" ++ toString now ++ ".png")) with
    | Except.ok newImageFile =>
      let st2 := addImageToHistory st1 newImageFile
      { st2 with editHotspot := none, displayHotspot := none, isLoading := false }
    | Except.error e =>
      { st1 with error := some ("Failed to generate the image. " ++ e), isLoading := false }

/-- `handleApplyFilter` (App.tsx lines 150-171). -/
def handleApplyFilter (st : AppState) (filterPrompt : String) (now : Nat)
    (gateway : Except String String) : AppState :=
  if (currentImage st).isNone || isCurrentItemVideo st then
    { st with error := some "No image loaded to apply a filter to." }
  else
    let st1 := { st with isLoading := true, loadingMessage := "AI is working its magic...", error := none }
    match gateway.bind (fun url => dataURLtoFile url ("filtered-" ++ toString now ++ ".png")) with
    | Except.ok newImageFile => { addImageToHistory st1 newImageFile with isLoading := false }
    | Except.error e =>
      { st1 with error := some ("Failed to apply the filter. " ++ e), isLoading := false }

/-- `handleApplyAdjustment` (App.tsx lines 173-194). -/
def handleApplyAdjustment (st : AppState) (adjustmentPrompt : String) (now : Nat)
    (gateway : Except String String) : AppState :=
  if (currentImage st).isNone || isCurrentItemVideo st then
    { st with error := some "No image loaded to apply an adjustment to." }
  else
    let st1 := { st with isLoading := true, loadingMessage := "AI is working its magic...", error := none }
    match gateway.bind (fun url => dataURLtoFile url ("adjusted-" ++ toString now ++ ".png")) with
    | Except.ok newImageFile => { addImageToHistory st1 newImageFile with isLoading := false }
    | Except.error e =>
      { st1 with error := some ("Failed to apply the adjustment. " ++ e), isLoading := false }

/-- `handleGenerate3DView` (App.tsx lines 196-217). -/
def handleGenerate3DView (st : AppState) (now : Nat) (gateway : Except String String) : AppState :=
  if (currentImage st).isNone || isCurrentItemVideo st then
    { st with error := some "No image loaded to generate a 3D view from." }
  else
    let st1 := { st with isLoading := true, loadingMessage := "AI is working its magic...", error := none }
    match gateway.bind (fun url => dataURLtoFile url ("3dview-" ++ toString now ++ ".png")) with
    | Except.ok newImageFile => { addImageToHistory st1 newImageFile with isLoading := false }
    | Except.error e =>
      { st1 with error := some ("Failed to generate the 3D view. " ++ e), isLoading := false }

/-- `handleGenerateVideo` (App.tsx lines 219-247): the animate operation;
its Gateway call resolves directly to a video `File`.  The `finally`
block resets the loading message. -/
def handleGenerateVideo (st : AppState) (prompt : String) (gateway : Except String File) : AppState :=
  if (currentImage st).isNone || isCurrentItemVideo st then
    { st with error := some "No image loaded to animate." }
  else if jsTrim prompt = "" then
    { st with error := some "Please enter a description for the animation." }
  else
    let st1 := { st with isLoading := true, error := none }
    match gateway with
    | Except.ok videoFile =>
      { addImageToHistory st1 videoFile with
          animatePrompt := "", isLoading := false, loadingMessage := "AI is working its magic..." }
    | Except.error e =>
      { st1 with
          error := some ("Failed to generate the video. " ++ e)
          isLoading := false
          loadingMessage := "AI is working its magic..." }

/-- `handleRemoveBackground` (App.tsx lines 249-271); the `finally` block
resets the loading message. -/
def handleRemoveBackground (st : AppState) (now : Nat) (gateway : Except String String) : AppState :=
  if (currentImage st).isNone || isCurrentItemVideo st then
    { st with error := some "No image loaded to remove background from." }
  else
    let st1 := { st with isLoading := true, loadingMessage := "AI is removing the background...", error := none }
    match gateway.bind (fun url => dataURLtoFile url ("bg-removed-" ++ toString now ++ ".png")) with
    | Except.ok newImageFile =>
      { addImageToHistory st1 newImageFile with
          isLoading := false, loadingMessage := "AI is working its magic..." }
    | Except.error e =>
      { st1 with
          error := some ("Failed to remove background. " ++ e)
          isLoading := false
          loadingMessage := "AI is working its magic..." }

/-- `handleRestorePhoto` (App.tsx lines 273-295); the `finally` block
resets the loading message. -/
def handleRestorePhoto (st : AppState) (now : Nat) (gateway : Except String String) : AppState :=
  if (currentImage st).isNone || isCurrentItemVideo st then
    { st with error := some "No image loaded to restore." }
  else
    let st1 := { st with isLoading := true, loadingMessage := "AI is restoring your photo...", error := none }
    match gateway.bind (fun url => dataURLtoFile url ("restored-" ++ toString now ++ ".png")) with
    | Except.ok newImageFile =>
      { addImageToHistory st1 newImageFile with
          isLoading := false, loadingMessage := "AI is working its magic..." }
    | Except.error e =>
      { st1 with
          error := some ("Failed to restore photo. " ++ e)
          isLoading := false
          loadingMessage := "AI is working its magic..." }

/-- `handleGroupRestorePhoto` (App.tsx lines 297-319); the `finally`
block resets the loading message. -/
def handleGroupRestorePhoto (st : AppState) (now : Nat) (gateway : Except String String) : AppState :=
  if (currentImage st).isNone || isCurrentItemVideo st then
    { st with error := some "No image loaded to restore." }
  else
    let st1 := { st with isLoading := true, loadingMessage := "AI is restoring your group photo...", error := none }
    match gateway.bind (fun url => dataURLtoFile url ("restored-group-" ++ toString now ++ ".png")) with
    | Except.ok newImageFile =>
      { addImageToHistory st1 newImageFile with
          isLoading := false, loadingMessage := "AI is working its magic..." }
    | Except.error e =>
      { st1 with
          error := some ("Failed to restore group photo. " ++ e)
          isLoading := false
          loadingMessage := "AI is working its magic..." }

/-! ### Operation sequences over the History Store -/

/-- One History Store operation: a (successful) append, an undo or a redo. -/
inductive HistOp where
  | append (f : File)
  | undo
  | redo
deriving Repr, DecidableEq

/-- Apply one History Store operation to the app state. -/
def applyHistOp (st : AppState) : HistOp → AppState
  | HistOp.append f => addImageToHistory st f
  | HistOp.undo => handleUndo st
  | HistOp.redo => handleRedo st

/-- Apply a sequence of History Store operations, left to right. -/
def applyHistOps (st : AppState) (ops : List HistOp) : AppState :=
  ops.foldl applyHistOp st

/-- The History Store invariant carried through every operation: the
cursor is in range and the first entry is the original upload. -/
def HistoryInv (f0 : File) (st : AppState) : Prop :=
  0 ≤ st.historyIndex ∧ st.historyIndex < (st.history.length : Int) ∧
    st.history.head? = some f0

/-! ### Concrete states used by witnesses and counterexamples -/

/-- A concrete uploaded image file. -/
def sampleFile : File :=
  { name := "photo.png", type := "image/png", content := [137, 80, 78, 71] }

/-- A concrete generated image file. -/
def sampleFile2 : File :=
  { name := "edited-1.png", type := "image/png", content := [0, 1] }

/-- A concrete post-upload state sitting on the retouch tab with a
hotspot selected and a prompt typed. -/
def baseState : AppState :=
  { history := [sampleFile]
    historyIndex := 0
    prompt := "make it pop"
    animatePrompt := ""
    isLoading := false
    loadingMessage := "AI is working its magic..."
    error := none
    editHotspot := some { x := 3, y := 4 }
    displayHotspot := some { x := 1, y := 2 }
    activeTab := Tab.retouch
    crop := none
    completedCrop := none }

/-- A concrete two-entry state with the cursor on the newest entry, a
dismissed-error field set, used to exercise `handleReset`. -/
def twoEntryState : AppState :=
  { baseState with
      history := [sampleFile, sampleFile2]
      historyIndex := 1
      error := some "Failed to apply the filter. boom" }

/-! ### Theorems -/

/-- C6: `handleUndo` with `head = 0` is a no-op — `canUndo` is false (the
recoverable precondition signal surfaced to the UI as the disabled Undo
button), the state is returned unchanged, and being a total function it
cannot crash; symmetrically `handleRedo` with `head = len(entries) - 1`
is a no-op with `canRedo` false. -/
theorem undo_redo_boundary_noop (st : AppState) :
    (st.historyIndex = 0 → handleUndo st = st ∧ canUndo st = false) ∧
    (st.historyIndex = (st.history.length : Int) - 1 → handleRedo st = st ∧ canRedo st = false) := by
  constructor
  · intro h
    have hcu : canUndo st = false := by simp [canUndo, h]
    exact ⟨by simp [handleUndo, hcu], hcu⟩
  · intro h
    have hcr : canRedo st = false := by simp [canRedo, h]
    exact ⟨by simp [handleRedo, hcr], hcr⟩

/-- Witness for C6 at the concrete single-entry state (`head = 0` is both
the undo floor and the redo ceiling there). -/
theorem undo_redo_boundary_noop_witness :
    (handleUndo baseState = baseState ∧ canUndo baseState = false) ∧
    (handleRedo baseState = baseState ∧ canRedo baseState = false) :=
  ⟨(undo_redo_boundary_noop baseState).1 (by decide),
   (undo_redo_boundary_noop baseState).2 (by decide)⟩

/-- C10: `handleReset` on a non-empty history sets the cursor to 0
without altering `entries`, and additionally clears the pending error
and both hotspot coordinate spaces (natural-resolution `editHotspot` and
display-space `displayHotspot`). -/
theorem reset_clears_hotspots_and_error (st : AppState) (h : st.history ≠ []) :
    handleReset st =
      { st with historyIndex := 0, error := none, editHotspot := none, displayHotspot := none } ∧
    (handleReset st).history = st.history := by
  have hl : 0 < st.history.length := List.length_pos.mpr h
  constructor
  · simp [handleReset, hl]
  · simp [handleReset, hl]

/-- Witness for C10 at a concrete two-entry state carrying an error and
both hotspots. -/
theorem reset_clears_hotspots_and_error_witness :
    handleReset twoEntryState =
      { twoEntryState with
          historyIndex := 0, error := none, editHotspot := none, displayHotspot := none } ∧
    (handleReset twoEntryState).history = twoEntryState.history :=
  reset_clears_hotspots_and_error twoEntryState (by decide)

/-- C8 counterexample: selecting no file (a null or empty `FileList`)
does not fail with any `InvalidInput` error — `handleFileSelect` is a
silent no-op that leaves the state identical and records no error. -/
theorem upload_empty_silent_counterexample :
    handleFileSelect baseState none = baseState ∧
    handleFileSelect baseState (some []) = baseState ∧
    (handleFileSelect baseState none).error = none := by
  refine ⟨rfl, rfl, rfl⟩

/-- C8 (amended): `handleFileSelect` with a first file dispatches
`handleImageUpload`, which replaces the whole history with the single
uploaded artifact, sets `head = 0`, and clears both hotspots, the error
and the transient crop state; with a null or empty file list the upload
is silently skipped and the state is unchanged (no `InvalidInput`
failure is reported). -/
theorem upload_replaces_history (st : AppState) (f : File) (rest : List File) :
    handleFileSelect st (some (f :: rest)) = handleImageUpload st f ∧
    (handleImageUpload st f).history = [f] ∧
    (handleImageUpload st f).historyIndex = 0 ∧
    (handleImageUpload st f).editHotspot = none ∧
    (handleImageUpload st f).displayHotspot = none ∧
    (handleImageUpload st f).error = none ∧
    (handleImageUpload st f).crop = none ∧
    (handleImageUpload st f).completedCrop = none ∧
    handleFileSelect st none = st ∧
    handleFileSelect st (some []) = st := by
  refine ⟨rfl, rfl, rfl, rfl, rfl, rfl, rfl, rfl, rfl, rfl⟩

/-- C2: with `head ≥ 0`, appending truncates `entries` to the first
`head + 1` elements, pushes the artifact, sets `head` to the new last
index; afterwards `canRedo` is false and a subsequent redo is a no-op,
so any previously undone branch is permanently discarded. -/
theorem append_truncates_and_kills_redo (st : AppState) (f : File) (h : 0 ≤ st.historyIndex) :
    (addImageToHistory st f).history = st.history.take (st.historyIndex.toNat + 1) ++ [f] ∧
    (addImageToHistory st f).historyIndex = ((addImageToHistory st f).history.length : Int) - 1 ∧
    canRedo (addImageToHistory st f) = false ∧
    handleRedo (addImageToHistory st f) = addImageToHistory st f := by
  have hk : (st.historyIndex + 1).toNat = st.historyIndex.toNat + 1 := by omega
  have h1 : (addImageToHistory st f).history = st.history.take (st.historyIndex.toNat + 1) ++ [f] := by
    simp [addImageToHistory, hk]
  have h2 : (addImageToHistory st f).historyIndex =
      ((addImageToHistory st f).history.length : Int) - 1 := by
    simp [addImageToHistory]
  have h3 : canRedo (addImageToHistory st f) = false := by
    simp [canRedo, h2]
  have h4 : handleRedo (addImageToHistory st f) = addImageToHistory st f := by
    simp [handleRedo, h3]
  exact ⟨h1, h2, h3, h4⟩

/-- Witness for C2: append after an undo at the concrete two-entry state
(cursor moved back to 0) discards the old branch. -/
theorem append_truncates_and_kills_redo_witness :
    (addImageToHistory (handleUndo twoEntryState) sampleFile2).history =
      (handleUndo twoEntryState).history.take ((handleUndo twoEntryState).historyIndex.toNat + 1) ++ [sampleFile2] ∧
    (addImageToHistory (handleUndo twoEntryState) sampleFile2).historyIndex =
      ((addImageToHistory (handleUndo twoEntryState) sampleFile2).history.length : Int) - 1 ∧
    canRedo (addImageToHistory (handleUndo twoEntryState) sampleFile2) = false ∧
    handleRedo (addImageToHistory (handleUndo twoEntryState) sampleFile2) =
      addImageToHistory (handleUndo twoEntryState) sampleFile2 :=
  append_truncates_and_kills_redo (handleUndo twoEntryState) sampleFile2 (by decide)

/-- `addImageToHistory` preserves the History Store invariant. -/
theorem histInv_append (f0 f : File) (st : AppState) (h : HistoryInv f0 st) :
    HistoryInv f0 (addImageToHistory st f) := by
  obtain ⟨h0, h1, h2⟩ := h
  cases hh : st.history with
  | nil => rw [hh] at h2; simp at h2
  | cons a t =>
    rw [hh] at h2 h1
    simp only [List.head?_cons, Option.some_inj] at h2
    subst h2
    have hk : (st.historyIndex + 1).toNat = st.historyIndex.toNat + 1 := by omega
    refine ⟨?_, ?_, ?_⟩
    · simp [addImageToHistory, hh, hk, List.take_succ_cons]
      omega
    · simp [addImageToHistory]
    · simp [addImageToHistory, hh, hk, List.take_succ_cons]

/-- `handleUndo` preserves the History Store invariant. -/
theorem histInv_undo (f0 : File) (st : AppState) (h : HistoryInv f0 st) :
    HistoryInv f0 (handleUndo st) := by
  obtain ⟨h0, h1, h2⟩ := h
  by_cases hc : 0 < st.historyIndex
  · have hct : canUndo st = true := by simp [canUndo, hc]
    have e1 : (handleUndo st).historyIndex = st.historyIndex - 1 := by simp [handleUndo, hct]
    have e2 : (handleUndo st).history = st.history := by simp [handleUndo, hct]
    exact ⟨by rw [e1]; omega, by rw [e1, e2]; omega, by rw [e2]; exact h2⟩
  · have hcf : canUndo st = false := by simp [canUndo]; omega
    have e : handleUndo st = st := by simp [handleUndo, hcf]
    rw [e]
    exact ⟨h0, h1, h2⟩

/-- `handleRedo` preserves the History Store invariant. -/
theorem histInv_redo (f0 : File) (st : AppState) (h : HistoryInv f0 st) :
    HistoryInv f0 (handleRedo st) := by
  obtain ⟨h0, h1, h2⟩ := h
  by_cases hc : st.historyIndex < (st.history.length : Int) - 1
  · have hct : canRedo st = true := by simp [canRedo, hc]
    have e1 : (handleRedo st).historyIndex = st.historyIndex + 1 := by simp [handleRedo, hct]
    have e2 : (handleRedo st).history = st.history := by simp [handleRedo, hct]
    exact ⟨by rw [e1]; omega, by rw [e1, e2]; omega, by rw [e2]; exact h2⟩
  · have hcf : canRedo st = false := by simp [canRedo]; omega
    have e : handleRedo st = st := by simp [handleRedo, hcf]
    rw [e]
    exact ⟨h0, h1, h2⟩

/-- Every sequence of History Store operations preserves the invariant. -/
theorem histInv_applyHistOps (f0 : File) (ops : List HistOp) :
    ∀ st : AppState, HistoryInv f0 st → HistoryInv f0 (applyHistOps st ops) := by
  induction ops with
  | nil => intro st h; exact h
  | cons op rest ih =>
    intro st h
    have hstep : HistoryInv f0 (applyHistOp st op) := by
      cases op with
      | append f => exact histInv_append f0 f st h
      | undo => exact histInv_undo f0 st h
      | redo => exact histInv_redo f0 st h
    simpa [applyHistOps, List.foldl_cons] using ih (applyHistOp st op) hstep

/-- C1: starting from an uploaded single-element history, every sequence
of append, undo, and redo operations keeps the cursor within
`[-1, len(entries) - 1]` (in fact within `[0, len(entries) - 1]`) and
leaves `entries[0]` — the original upload — in place unchanged. -/
theorem history_invariant_sequences (st0 : AppState) (f0 : File) (ops : List HistOp) :
    -1 ≤ (applyHistOps (handleImageUpload st0 f0) ops).historyIndex ∧
    (applyHistOps (handleImageUpload st0 f0) ops).historyIndex ≤
      ((applyHistOps (handleImageUpload st0 f0) ops).history.length : Int) - 1 ∧
    (applyHistOps (handleImageUpload st0 f0) ops).history.head? = some f0 := by
  have hbase : HistoryInv f0 (handleImageUpload st0 f0) := by
    refine ⟨?_, ?_, ?_⟩ <;> simp [handleImageUpload]
  obtain ⟨h0, h1, h2⟩ := histInv_applyHistOps f0 ops (handleImageUpload st0 f0) hbase
  exact ⟨by omega, by omega, h2⟩

/-- C7 counterexample: a successful filter operation at a concrete state
with a selected hotspot appends a new head artifact (the history grows
from one to two entries) yet leaves both the natural-resolution and the
display-space hotspot set — history advancing with a new head artifact
does not clear the edit hotspot. -/
theorem filter_append_keeps_hotspot_counterexample :
    (handleApplyFilter baseState "sepia" 7 (Except.ok "data:image/png;base64,AAEC")).history.length = 2 ∧
    (handleApplyFilter baseState "sepia" 7 (Except.ok "data:image/png;base64,AAEC")).editHotspot =
      some { x := 3, y := 4 } ∧
    (handleApplyFilter baseState "sepia" 7 (Except.ok "data:image/png;base64,AAEC")).displayHotspot =
      some { x := 1, y := 2 } := by
  refine ⟨by decide, by decide, by decide⟩

/-- C7 (amended): every append clears the transient crop state (`crop`
and `completedCrop`) but leaves the edit hotspot untouched; the hotspot
is cleared by the retouch edit operation itself after its append (and by
undo, redo, reset and upload), while filter and the other non-edit
appends leave both hotspot fields unchanged. -/
theorem append_clears_crop_not_hotspot (st : AppState) (f : File) (fp : String) (now : Nat)
    (g : Except String String) (url : String) (f2 : File)
    (himg : (currentImage st).isNone = false) (hvid : isCurrentItemVideo st = false)
    (hpr : ¬ jsTrim st.prompt = "") (hhs : st.editHotspot.isNone = false)
    (hurl : dataURLtoFile url ("edited-" ++ toString now ++ ".png") = Except.ok f2) :
    (addImageToHistory st f).editHotspot = st.editHotspot ∧
    (addImageToHistory st f).displayHotspot = st.displayHotspot ∧
    (addImageToHistory st f).crop = none ∧
    (addImageToHistory st f).completedCrop = none ∧
    (handleApplyFilter st fp now g).editHotspot = st.editHotspot ∧
    (handleApplyFilter st fp now g).displayHotspot = st.displayHotspot ∧
    (handleGenerate st now (Except.ok url)).editHotspot = none ∧
    (handleGenerate st now (Except.ok url)).displayHotspot = none := by
  have hfilter : (handleApplyFilter st fp now g).editHotspot = st.editHotspot ∧
      (handleApplyFilter st fp now g).displayHotspot = st.displayHotspot := by
    cases g with
    | error e => simp [handleApplyFilter, himg, hvid, Except.bind]
    | ok u =>
      cases hdu : dataURLtoFile u ("filtered-" ++ toString now ++ ".png") with
      | ok f3 => simp [handleApplyFilter, himg, hvid, Except.bind, hdu, addImageToHistory]
      | error e => simp [handleApplyFilter, himg, hvid, Except.bind, hdu]
  refine ⟨by simp [addImageToHistory], by simp [addImageToHistory],
    by simp [addImageToHistory], by simp [addImageToHistory], hfilter.1, hfilter.2, ?_, ?_⟩
  · simp [handleGenerate, himg, hvid, hpr, hhs, Except.bind, hurl, addImageToHistory]
  · simp [handleGenerate, himg, hvid, hpr, hhs, Except.bind, hurl, addImageToHistory]

/-- Witness for C7's amended theorem at the concrete base state with a
decodable success payload. -/
theorem append_clears_crop_not_hotspot_witness :
    (addImageToHistory baseState sampleFile2).editHotspot = baseState.editHotspot ∧
    (addImageToHistory baseState sampleFile2).displayHotspot = baseState.displayHotspot ∧
    (addImageToHistory baseState sampleFile2).crop = none ∧
    (addImageToHistory baseState sampleFile2).completedCrop = none ∧
    (handleApplyFilter baseState "sepia" 7 (Except.error "refused")).editHotspot = baseState.editHotspot ∧
    (handleApplyFilter baseState "sepia" 7 (Except.error "refused")).displayHotspot = baseState.displayHotspot ∧
    (handleGenerate baseState 7 (Except.ok "data:image/png;base64,AAEC")).editHotspot = none ∧
    (handleGenerate baseState 7 (Except.ok "data:image/png;base64,AAEC")).displayHotspot = none :=
  append_clears_crop_not_hotspot baseState sampleFile2 "sepia" 7 (Except.error "refused")
    "data:image/png;base64,AAEC"
    { name := "edited-7.png", type := "image/png", content := [0, 1, 2] }
    (by decide) (by decide) (by decide) (by decide) (by rfl)

/-- C3: for every operation kind (edit, filter, adjustment, 3-D view,
background removal, restore, group-restore, animate), when the Gateway
call rejects — with a refusal, transport error, timeout, or
missing-output message `e` — the handler leaves `history` and
`historyIndex` exactly as they were (no artifact is appended on any
failure path) and converts the failure into the operation's user-facing
error message instead of letting it propagate. -/
theorem gateway_failure_leaves_history (st : AppState) (e : String) (now : Nat)
    (fp ap vp : String)
    (himg : (currentImage st).isNone = false) (hvid : isCurrentItemVideo st = false)
    (hpr : ¬ jsTrim st.prompt = "") (hhs : st.editHotspot.isNone = false)
    (hvp : ¬ jsTrim vp = "") :
    ((handleGenerate st now (Except.error e)).history = st.history ∧
      (handleGenerate st now (Except.error e)).historyIndex = st.historyIndex ∧
      (handleGenerate st now (Except.error e)).error =
        some ("Failed to generate the image. " ++ e)) ∧
    ((handleApplyFilter st fp now (Except.error e)).history = st.history ∧
      (handleApplyFilter st fp now (Except.error e)).historyIndex = st.historyIndex ∧
      (handleApplyFilter st fp now (Except.error e)).error =
        some ("Failed to apply the filter. " ++ e)) ∧
    ((handleApplyAdjustment st ap now (Except.error e)).history = st.history ∧
      (handleApplyAdjustment st ap now (Except.error e)).historyIndex = st.historyIndex ∧
      (handleApplyAdjustment st ap now (Except.error e)).error =
        some ("Failed to apply the adjustment. " ++ e)) ∧
    ((handleGenerate3DView st now (Except.error e)).history = st.history ∧
      (handleGenerate3DView st now (Except.error e)).historyIndex = st.historyIndex ∧
      (handleGenerate3DView st now (Except.error e)).error =
        some ("Failed to generate the 3D view. " ++ e)) ∧
    ((handleRemoveBackground st now (Except.error e)).history = st.history ∧
      (handleRemoveBackground st now (Except.error e)).historyIndex = st.historyIndex ∧
      (handleRemoveBackground st now (Except.error e)).error =
        some ("Failed to remove background. " ++ e)) ∧
    ((handleRestorePhoto st now (Except.error e)).history = st.history ∧
      (handleRestorePhoto st now (Except.error e)).historyIndex = st.historyIndex ∧
      (handleRestorePhoto st now (Except.error e)).error =
        some ("Failed to restore photo. " ++ e)) ∧
    ((handleGroupRestorePhoto st now (Except.error e)).history = st.history ∧
      (handleGroupRestorePhoto st now (Except.error e)).historyIndex = st.historyIndex ∧
      (handleGroupRestorePhoto st now (Except.error e)).error =
        some ("Failed to restore group photo. " ++ e)) ∧
    ((handleGenerateVideo st vp (Except.error e)).history = st.history ∧
      (handleGenerateVideo st vp (Except.error e)).historyIndex = st.historyIndex ∧
      (handleGenerateVideo st vp (Except.error e)).error =
        some ("Failed to generate the video. " ++ e)) := by
  refine ⟨⟨?_, ?_, ?_⟩, ⟨?_, ?_, ?_⟩, ⟨?_, ?_, ?_⟩, ⟨?_, ?_, ?_⟩, ⟨?_, ?_, ?_⟩,
    ⟨?_, ?_, ?_⟩, ⟨?_, ?_, ?_⟩, ⟨?_, ?_, ?_⟩⟩ <;>
    simp [handleGenerate, handleApplyFilter, handleApplyAdjustment, handleGenerate3DView,
      handleRemoveBackground, handleRestorePhoto, handleGroupRestorePhoto, handleGenerateVideo,
      himg, hvid, hpr, hhs, hvp, Except.bind]

/-- Witness for C3 at the concrete base state. -/
theorem gateway_failure_leaves_history_witness :
    ((handleGenerate baseState 7 (Except.error "boom")).history = baseState.history ∧
      (handleGenerate baseState 7 (Except.error "boom")).historyIndex = baseState.historyIndex ∧
      (handleGenerate baseState 7 (Except.error "boom")).error =
        some ("Failed to generate the image. " ++ "boom")) ∧
    ((handleApplyFilter baseState "sepia" 7 (Except.error "boom")).history = baseState.history ∧
      (handleApplyFilter baseState "sepia" 7 (Except.error "boom")).historyIndex = baseState.historyIndex ∧
      (handleApplyFilter baseState "sepia" 7 (Except.error "boom")).error =
        some ("Failed to apply the filter. " ++ "boom")) ∧
    ((handleApplyAdjustment baseState "warmer" 7 (Except.error "boom")).history = baseState.history ∧
      (handleApplyAdjustment baseState "warmer" 7 (Except.error "boom")).historyIndex = baseState.historyIndex ∧
      (handleApplyAdjustment baseState "warmer" 7 (Except.error "boom")).error =
        some ("Failed to apply the adjustment. " ++ "boom")) ∧
    ((handleGenerate3DView baseState 7 (Except.error "boom")).history = baseState.history ∧
      (handleGenerate3DView baseState 7 (Except.error "boom")).historyIndex = baseState.historyIndex ∧
      (handleGenerate3DView baseState 7 (Except.error "boom")).error =
        some ("Failed to generate the 3D view. " ++ "boom")) ∧
    ((handleRemoveBackground baseState 7 (Except.error "boom")).history = baseState.history ∧
      (handleRemoveBackground baseState 7 (Except.error "boom")).historyIndex = baseState.historyIndex ∧
      (handleRemoveBackground baseState 7 (Except.error "boom")).error =
        some ("Failed to remove background. " ++ "boom")) ∧
    ((handleRestorePhoto baseState 7 (Except.error "boom")).history = baseState.history ∧
      (handleRestorePhoto baseState 7 (Except.error "boom")).historyIndex = baseState.historyIndex ∧
      (handleRestorePhoto baseState 7 (Except.error "boom")).error =
        some ("Failed to restore photo. " ++ "boom")) ∧
    ((handleGroupRestorePhoto baseState 7 (Except.error "boom")).history = baseState.history ∧
      (handleGroupRestorePhoto baseState 7 (Except.error "boom")).historyIndex = baseState.historyIndex ∧
      (handleGroupRestorePhoto baseState 7 (Except.error "boom")).error =
        some ("Failed to restore group photo. " ++ "boom")) ∧
    ((handleGenerateVideo baseState "a gentle breeze" (Except.error "boom")).history = baseState.history ∧
      (handleGenerateVideo baseState "a gentle breeze" (Except.error "boom")).historyIndex = baseState.historyIndex ∧
      (handleGenerateVideo baseState "a gentle breeze" (Except.error "boom")).error =
        some ("Failed to generate the video. " ++ "boom")) :=
  gateway_failure_leaves_history baseState "boom" 7 "sepia" "warmer" "a gentle breeze"
    (by decide) (by decide) (by decide) (by decide) (by decide)

/-- C4: `handleApiResponse` classifies every response in strict priority
order: (a) a (truthy) block reason yields the refusal error carrying the
reason and the optional message; (b) otherwise an inline image payload
yields success with that image's data URL; (c) otherwise a present
completion reason different from the normal `STOP` value yields a
failure carrying that reason with the safety-filter note; (d) otherwise
the failure carries the response's (trimmed, non-empty) text, or the
generic no-image message when none is present. -/
theorem classification_priority (r : GenerateContentResponse) (context : String) :
    (∀ br msg, blockReasonOf r = some (br, msg) →
      handleApiResponse r context =
        Except.error ("Request was blocked. Reason: " ++ br ++ ". " ++ msg.getD "")) ∧
    (∀ d, blockReasonOf r = none → imagePartOf r = some d →
      handleApiResponse r context = Except.ok (mkDataUrl d.mimeType d.data)) ∧
    (∀ fr, blockReasonOf r = none → imagePartOf r = none → finishReasonOf r = some fr →
      fr ≠ "" → fr ≠ "STOP" →
      handleApiResponse r context =
        Except.error ("Image generation for " ++ context ++ " stopped unexpectedly. Reason: " ++
          fr ++ ". This often relates to safety settings.")) ∧
    (blockReasonOf r = none → imagePartOf r = none →
      (∀ fr, finishReasonOf r = some fr → fr = "" ∨ fr = "STOP") →
      handleApiResponse r context = Except.error (noImageError r context)) := by
  refine ⟨?_, ?_, ?_, ?_⟩
  · intro br msg hb
    simp [handleApiResponse, hb]
  · intro d hb hi
    simp [handleApiResponse, hb, hi]
  · intro fr hb hi hf hne hns
    simp [handleApiResponse, hb, hi, hf, hne, hns]
  · intro hb hi hok
    cases hf : finishReasonOf r with
    | none => simp [handleApiResponse, hb, hi, hf]
    | some fr =>
      rcases hok fr hf with h | h <;> simp [handleApiResponse, hb, hi, hf, h]

/-- A concrete blocked response (policy refusal with a message). -/
def blockedResponse : GenerateContentResponse :=
  { promptFeedback := some { blockReason := some "SAFETY", blockReasonMessage := some "blocked input" }
    candidates := []
    text := none }

/-- Witness for C4 at the concrete blocked response: the refusal branch
fires and carries the block reason and message. -/
theorem classification_priority_witness :
    handleApiResponse blockedResponse "filter" =
      Except.error ("Request was blocked. Reason: " ++ "SAFETY" ++ ". " ++
        (some "blocked input").getD "") :=
  (classification_priority blockedResponse "filter").1 "SAFETY" (some "blocked input") (by decide)

/-- The poll loop always terminates with the operation done or the
attempt counter exactly at the ceiling (never beyond it). -/
theorem pollLoop_stop_aux (getOp : Nat → VideoOperation) :
    ∀ n k op, maxAttempts - k = n → k ≤ maxAttempts →
      (pollLoop getOp op k).2 ≤ maxAttempts ∧
      ((pollLoop getOp op k).1.done = true ∨ (pollLoop getOp op k).2 = maxAttempts) := by
  intro n
  induction n with
  | zero =>
    intro k op hn hk
    have hkk : k = maxAttempts := by omega
    rw [pollLoop, dif_neg (fun h => by omega)]
    exact ⟨by omega, Or.inr hkk⟩
  | succ m ih =>
    intro k op hn hk
    by_cases hd : op.done = false
    · have hlt : k < maxAttempts := by omega
      rw [pollLoop, dif_pos ⟨hd, hlt⟩]
      exact ih (k + 1) (getOp k) (by omega) (by omega)
    · rw [pollLoop, dif_neg (fun h => hd h.1)]
      have : op.done = true := by simpa using hd
      exact ⟨hk, Or.inl this⟩

/-- When the initial operation and every polled status are still not
done, the loop runs all 30 attempts and ends with an unfinished
operation. -/
theorem pollLoop_timeout_aux (getOp : Nat → VideoOperation)
    (hAll : ∀ i, i < maxAttempts → (getOp i).done = false) :
    ∀ n k op, maxAttempts - k = n → k ≤ maxAttempts → op.done = false →
      (pollLoop getOp op k).1.done = false ∧ (pollLoop getOp op k).2 = maxAttempts := by
  intro n
  induction n with
  | zero =>
    intro k op hn hk hop
    have hkk : k = maxAttempts := by omega
    rw [pollLoop, dif_neg (fun h => by omega)]
    exact ⟨hop, hkk⟩
  | succ m ih =>
    intro k op hn hk hop
    have hlt : k < maxAttempts := by omega
    rw [pollLoop, dif_pos ⟨hop, hlt⟩]
    exact ih (k + 1) (getOp k) (by omega) (by omega) (hAll k hlt)

/-- C5: the animate operation's poll loop sleeps a fixed 10-second
interval (`pollInterval = 10000` ms) before each status query and
increments an attempt counter; it stops as soon as the operation is done
or 30 attempts are reached, never exceeding the ceiling; and when every
status query up to the ceiling reports the operation unfinished, the
loop performs exactly 30 attempts — 30 × 10 s = 5 minutes of waiting —
and the result is the failure whose message states the 5-minute bound. -/
theorem video_poll_ceiling (op0 : VideoOperation) (getOp : Nat → VideoOperation)
    (fetchResult : FetchResponse) (now : Nat)
    (h0 : op0.done = false) (hAll : ∀ i, i < maxAttempts → (getOp i).done = false) :
    pollInterval = 10000 ∧
    maxAttempts = 30 ∧
    (∀ op1 : VideoOperation, (pollLoop getOp op1 0).2 ≤ maxAttempts ∧
      ((pollLoop getOp op1 0).1.done = true ∨ (pollLoop getOp op1 0).2 = maxAttempts)) ∧
    (pollLoop getOp op0 0).2 = 30 ∧
    (pollLoop getOp op0 0).2 * pollInterval = 5 * 60 * 1000 ∧
    generateVideoFromImage op0 getOp fetchResult now =
      Except.error "Video generation timed out after 5 minutes." := by
  obtain ⟨hd, ha⟩ :=
    pollLoop_timeout_aux getOp hAll maxAttempts 0 op0 rfl (Nat.zero_le _) h0
  refine ⟨rfl, rfl, ?_, ?_, ?_, ?_⟩
  · intro op1
    exact pollLoop_stop_aux getOp maxAttempts 0 op1 rfl (Nat.zero_le _)
  · exact ha
  · rw [ha]; rfl
  · simp [generateVideoFromImage, hd]

/-- A video operation handle that never completes. -/
def stuckOp : VideoOperation := { done := false, error := none, uri := none }

/-- A concrete successful download response (unused on the timeout path). -/
def sampleFetch : FetchResponse := { ok := true, statusText := "OK", blob := [0, 1] }

/-- Witness for C5: polling an operation that never completes exhausts
the 30-attempt / 5-minute ceiling and yields the timeout failure. -/
theorem video_poll_ceiling_witness :
    pollInterval = 10000 ∧
    maxAttempts = 30 ∧
    (∀ op1 : VideoOperation, (pollLoop (fun _ => stuckOp) op1 0).2 ≤ maxAttempts ∧
      ((pollLoop (fun _ => stuckOp) op1 0).1.done = true ∨
        (pollLoop (fun _ => stuckOp) op1 0).2 = maxAttempts)) ∧
    (pollLoop (fun _ => stuckOp) stuckOp 0).2 = 30 ∧
    (pollLoop (fun _ => stuckOp) stuckOp 0).2 * pollInterval = 5 * 60 * 1000 ∧
    generateVideoFromImage stuckOp (fun _ => stuckOp) sampleFetch 7 =
      Except.error "Video generation timed out after 5 minutes." :=
  video_poll_ceiling stuckOp (fun _ => stuckOp) sampleFetch 7 (by decide) (fun i _ => rfl)

/-- Splitting a list that does not contain the separator yields the list
as the single chunk. -/
theorem splitOnChar_of_not_mem (c : Char) (xs : List Char) (h : c ∉ xs) :
    splitOnChar c xs = [xs] := by
  induction xs with
  | nil => rfl
  | cons x t ih =>
    have hx : ¬ x = c := fun he => h (he ▸ List.mem_cons_self x t)
    have ht : c ∉ t := fun hm => h (List.mem_cons_of_mem x hm)
    simp [splitOnChar, hx, ih ht]

/-- Splitting around the first separator occurrence: the chunk before the
separator is peeled off and the rest is split recursively. -/
theorem splitOnChar_append_cons (c : Char) (xs ys : List Char) (h : c ∉ xs) :
    splitOnChar c (xs ++ c :: ys) = xs :: splitOnChar c ys := by
  induction xs with
  | nil => simp [splitOnChar]
  | cons x t ih =>
    have hx : ¬ x = c := fun he => h (he ▸ List.mem_cons_self x t)
    have ht : c ∉ t := fun hm => h (List.mem_cons_of_mem x hm)
    simp [List.cons_append, splitOnChar, hx, ih ht]

/-- A non-empty string has a non-empty character list. -/
theorem data_ne_nil (s : String) (h : s ≠ "") : s.data ≠ [] := by
  intro hd
  apply h
  apply String.ext
  rw [hd]

/-- The parsing half of the round-trip: feeding the data URL built from a
well-formed MIME type and base64 payload back through `dataURLtoFile`
recovers exactly that MIME type and the base64-decoded bytes. -/
theorem dataURLtoFile_mkDataUrl (mime data filename : String) (bs : List Nat)
    (hm0 : mime ≠ "") (hm1 : ':' ∉ mime.data) (hm2 : ';' ∉ mime.data)
    (hm3 : ',' ∉ mime.data) (hd1 : ',' ∉ data.data)
    (hb : atob data.data = some bs) :
    dataURLtoFile (mkDataUrl mime data) filename =
      Except.ok { name := filename, type := mime, content := bs } := by
  have hxs : ',' ∉ ['d', 'a', 't', 'a', ':'] ++ mime.data ++ [';', 'b', 'a', 's', 'e', '6', '4'] := by
    intro hmem
    rcases List.mem_append.mp hmem with hmem1 | hmem2
    · rcases List.mem_append.mp hmem1 with hmem3 | hmem4
      · exact absurd hmem3 (by decide)
      · exact hm3 hmem4
    · exact absurd hmem2 (by decide)
  have hx : (mkDataUrl mime data).data =
      (['d', 'a', 't', 'a', ':'] ++ mime.data ++ [';', 'b', 'a', 's', 'e', '6', '4']) ++
        ',' :: data.data := by
    simp [mkDataUrl, String.data_append]
  have hsplit1 : splitOnChar ',' (mkDataUrl mime data).data =
      (['d', 'a', 't', 'a', ':'] ++ mime.data ++ [';', 'b', 'a', 's', 'e', '6', '4']) ::
        [data.data] := by
    rw [hx, splitOnChar_append_cons ',' _ _ hxs, splitOnChar_of_not_mem ',' _ hd1]
  have e1 : ['d', 'a', 't', 'a', ':'] ++ mime.data ++ [';', 'b', 'a', 's', 'e', '6', '4'] =
      ['d', 'a', 't', 'a'] ++ ':' :: (mime.data ++ ';' :: ['b', 'a', 's', 'e', '6', '4']) := by
    simp
  have hcolon : ':' ∉ mime.data ++ ';' :: ['b', 'a', 's', 'e', '6', '4'] := by
    intro hmem
    rcases List.mem_append.mp hmem with hmem1 | hmem2
    · exact hm1 hmem1
    · exact absurd hmem2 (by decide)
  have e2 : splitOnChar ':' (['d', 'a', 't', 'a', ':'] ++ mime.data ++ [';', 'b', 'a', 's', 'e', '6', '4']) =
      [['d', 'a', 't', 'a'], mime.data ++ ';' :: ['b', 'a', 's', 'e', '6', '4']] := by
    rw [e1, splitOnChar_append_cons ':' _ _ (by decide), splitOnChar_of_not_mem ':' _ hcolon]
  have e3 : splitOnChar ';' (mime.data ++ ';' :: ['b', 'a', 's', 'e', '6', '4']) =
      [mime.data, ['b', 'a', 's', 'e', '6', '4']] := by
    rw [splitOnChar_append_cons ';' _ _ hm2, splitOnChar_of_not_mem ';' _ (by decide)]
  have hne : mime.data.isEmpty = false := by
    cases hmm : mime.data with
    | nil => exact absurd hmm (data_ne_nil mime hm0)
    | cons a t => rfl
  have hmime : mimeFromHeader (['d', 'a', 't', 'a', ':'] ++ mime.data ++ [';', 'b', 'a', 's', 'e', '6', '4']) =
      some mime.data := by
    unfold mimeFromHeader
    rw [e2]
    simp only [joinSep]
    rw [e3]
    simp [hne]
  unfold dataURLtoFile
  rw [hsplit1]
  simp only []
  rw [hmime, hb]

/-- C9: for a successful synchronous operation — a response that is not
blocked and carries an inline image payload `(mimeType, data)` with a
well-formed MIME type (non-empty image MIME without `:`/`;`/`,`) and a
valid base64 payload — the classification step returns exactly the data
URL `data:mimeType;base64,data`; converting that data URL back to a file
recovers the same MIME type and the base64-decoded bytes; and after
appending, the artifact read back as the current head is byte-identical,
with an image (non-video) media kind. -/
theorem roundtrip_success (r : GenerateContentResponse) (context filename : String)
    (st : AppState) (d : InlineData) (bs : List Nat)
    (hblock : blockReasonOf r = none) (himg : imagePartOf r = some d)
    (hm0 : d.mimeType ≠ "") (hm1 : ':' ∉ d.mimeType.data) (hm2 : ';' ∉ d.mimeType.data)
    (hm3 : ',' ∉ d.mimeType.data) (hd1 : ',' ∉ d.data.data)
    (hb : atob d.data.data = some bs)
    (hkind : jsStartsWith d.mimeType "image/" = true)
    (hvid : jsStartsWith d.mimeType "video/" = false) :
    handleApiResponse r context = Except.ok (mkDataUrl d.mimeType d.data) ∧
    dataURLtoFile (mkDataUrl d.mimeType d.data) filename =
      Except.ok { name := filename, type := d.mimeType, content := bs } ∧
    currentImage (addImageToHistory st { name := filename, type := d.mimeType, content := bs }) =
      some { name := filename, type := d.mimeType, content := bs } ∧
    jsStartsWith ({ name := filename, type := d.mimeType, content := bs } : File).type "image/" = true ∧
    isCurrentItemVideo (addImageToHistory st { name := filename, type := d.mimeType, content := bs }) = false := by
  have hcur : currentImage (addImageToHistory st { name := filename, type := d.mimeType, content := bs }) =
      some { name := filename, type := d.mimeType, content := bs } := by
    unfold addImageToHistory currentImage
    simp only [List.length_append, List.length_cons, List.length_nil]
    rw [if_neg (by push_cast; omega)]
    have ht : ((((st.history.take (st.historyIndex + 1).toNat).length + (0 + 1) : Nat) : Int) - 1).toNat =
        (st.history.take (st.historyIndex + 1).toNat).length := by omega
    rw [ht]
    exact List.get?_concat_length _ _
  refine ⟨?_, ?_, hcur, hkind, ?_⟩
  · simp [handleApiResponse, hblock, himg]
  · exact dataURLtoFile_mkDataUrl d.mimeType d.data filename bs hm0 hm1 hm2 hm3 hd1 hb
  · simp [isCurrentItemVideo, hcur, hvid]

/-- A concrete successful response carrying one inline PNG payload. -/
def imageResponse : GenerateContentResponse :=
  { promptFeedback := none
    candidates :=
      [{ content := some [{ text := none, inlineData := some { mimeType := "image/png", data := "AAEC" } }]
         finishReason := some "STOP" }]
    text := none }

/-- Witness for C9 at the concrete successful response: the payload
`AAEC` decodes to the bytes `[0, 1, 2]` and round-trips through the data
URL, the file conversion and the history append. -/
theorem roundtrip_success_witness :
    handleApiResponse imageResponse "edit" = Except.ok (mkDataUrl "image/png" "AAEC") ∧
    dataURLtoFile (mkDataUrl "image/png" "AAEC") "edited-7.png" =
      Except.ok { name := "edited-7.png", type := "image/png", content := [0, 1, 2] } ∧
    currentImage (addImageToHistory baseState { name := "edited-7.png", type := "image/png", content := [0, 1, 2] }) =
      some { name := "edited-7.png", type := "image/png", content := [0, 1, 2] } ∧
    jsStartsWith ({ name := "edited-7.png", type := "image/png", content := [0, 1, 2] } : File).type "image/" = true ∧
    isCurrentItemVideo (addImageToHistory baseState { name := "edited-7.png", type := "image/png", content := [0, 1, 2] }) = false :=
  roundtrip_success imageResponse "edit" "edited-7.png" baseState
    { mimeType := "image/png", data := "AAEC" } [0, 1, 2]
    (by decide) (by decide) (by decide) (by decide) (by decide) (by decide) (by decide)
    (by decide) (by decide) (by decide)

end Pixshop
